import Mathlib

/-!
Verification of the calibration and measurement engine of the pH-sensor
extension.  The repository ships block definitions and Python code-emission
templates that call into a driver module `ph_sensor.py`; the driver itself is
not part of the shipped sources, so its operations are modelled from the
specification.  The one computation implemented directly in the shipped
sources is the pH-level conditional emitted by the `ph_check_level`
generator, which is embedded from that source.  Real numbers of the engine
are modelled by rationals, the exact idealisation of its float64 arithmetic.
Mutable calibration state is modelled by explicit state passing: each
operation takes the current `CalibrationState` and returns either an error
or the fully replaced new state.
-/

namespace PhSensor

/-- The `(slope, intercept)` pair held by CalibrationStore, defining the
linear equation `pH = slope * voltage + intercept`. -/
structure CalibrationState where
  slope : ℚ
  intercept : ℚ
  deriving Repr, DecidableEq

/-- The calibration-write error kinds of the engine. -/
inductive CalibError where
  | InvalidCalibration : CalibError
  | DegenerateCalibration : CalibError
  deriving Repr, DecidableEq

/-- Modelled from the spec: `setCalibration(slope, intercept)` of the missing
driver module `ph_sensor.py` — direct override of the store; fails with
`InvalidCalibration` if `slope == 0`, otherwise fully replaces both fields. -/
def setCalibration (slope intercept : ℚ) (st : CalibrationState) :
    Except CalibError CalibrationState :=
  if slope = 0 then Except.error CalibError.InvalidCalibration
  else Except.ok ⟨slope, intercept⟩

/-- Modelled from the spec: `calibrateOffset(measuredPh, actualPh)` of the
missing driver module `ph_sensor.py` — only the intercept shifts, by
`actualPh - measuredPh`; the slope is unchanged.  The spec lists no failure
for this operation. -/
def calibrateOffset (measuredPh actualPh : ℚ) (st : CalibrationState) :
    CalibrationState :=
  { st with intercept := st.intercept + (actualPh - measuredPh) }

/-- Modelled from the spec: `calibrateTwoPoint(voltageLow, voltageHigh,
phLow, phHigh)` of the missing driver module `ph_sensor.py` — the exact
two-point line `slope = (phHigh - phLow) / (voltageHigh - voltageLow)`,
`intercept = phLow - slope * voltageLow`.  Fails with
`DegenerateCalibration` when `voltageHigh == voltageLow`, the sole failure
the interface table lists for it, leaving the store unchanged. -/
def calibrateTwoPoint (voltageLow voltageHigh phLow phHigh : ℚ)
    (st : CalibrationState) : Except CalibError CalibrationState :=
  if voltageHigh = voltageLow then Except.error CalibError.DegenerateCalibration
  else
    let slope := (phHigh - phLow) / (voltageHigh - voltageLow)
    Except.ok ⟨slope, phLow - slope * voltageLow⟩

/-- The least-squares denominator `n·Σx² − (Σx)²` with `n = 3`. -/
def lsqDenom (v1 v2 v3 : ℚ) : ℚ :=
  3 * (v1 ^ 2 + v2 ^ 2 + v3 ^ 2) - (v1 + v2 + v3) ^ 2

/-- The least-squares slope `(n·Σxy − Σx·Σy) / (n·Σx² − (Σx)²)` with
`n = 3`, `x` the voltages and `y` the reference pH values. -/
def lsqSlope (v1 v2 v3 p1 p2 p3 : ℚ) : ℚ :=
  (3 * (v1 * p1 + v2 * p2 + v3 * p3) - (v1 + v2 + v3) * (p1 + p2 + p3)) /
    lsqDenom v1 v2 v3

/-- The least-squares intercept `(Σy − slope·Σx) / n` with `n = 3`. -/
def lsqIntercept (v1 v2 v3 p1 p2 p3 : ℚ) : ℚ :=
  ((p1 + p2 + p3) - lsqSlope v1 v2 v3 p1 p2 p3 * (v1 + v2 + v3)) / 3

/-- Modelled from the spec: `calibrateThreePoint(v1, v2, v3, ph1, ph2, ph3)`
of the missing driver module `ph_sensor.py` — ordinary least-squares fit of
a line through the three `(voltage, ph)` pairs.  Fails with
`DegenerateCalibration` when the denominator `n·Σx² − (Σx)²` is zero,
leaving the store unchanged. -/
def calibrateThreePoint (v1 v2 v3 ph1 ph2 ph3 : ℚ) (st : CalibrationState) :
    Except CalibError CalibrationState :=
  if lsqDenom v1 v2 v3 = 0 then Except.error CalibError.DegenerateCalibration
  else Except.ok ⟨lsqSlope v1 v2 v3 ph1 ph2 ph3, lsqIntercept v1 v2 v3 ph1 ph2 ph3⟩

/-- The store visible after attempting a calibration write: on success the
new state, on failure the previous state (no partial update is ever
observable). -/
def runOp (op : CalibrationState → Except CalibError CalibrationState)
    (st : CalibrationState) : CalibrationState :=
  match op st with
  | Except.ok st2 => st2
  | Except.error _ => st

/-- Modelled from the spec: `phFromVoltage(voltage)` of the missing driver
module `ph_sensor.py` — `slope * voltage + intercept`, reading the pair
fresh from the store (here: from the state argument) on every call, with no
output clamping. -/
def phFromVoltage (voltage : ℚ) (st : CalibrationState) : ℚ :=
  st.slope * voltage + st.intercept

/-- A point-in-time snapshot composed by the reading aggregator. -/
structure Reading where
  voltage : ℚ
  ph : ℚ
  slope : ℚ
  intercept : ℚ
  deriving Repr, DecidableEq

/-- Modelled from the spec: `readAll(voltage)` / `read_all_values` of the
missing driver module `ph_sensor.py` — composes voltage, pH, slope and
intercept from a single CalibrationStore snapshot (the state argument),
used both for the pH and for the reported coefficients. -/
def readAll (voltage : ℚ) (st : CalibrationState) : Reading :=
  ⟨voltage, phFromVoltage voltage st, st.slope, st.intercept⟩

/-- The qualitative pH categories of the level classifier («กรด» acid,
«กลาง» neutral, «ด่าง» base). -/
inductive PhLevel where
  | Acid : PhLevel
  | Neutral : PhLevel
  | Base : PhLevel
  deriving Repr, DecidableEq

/-- Embedding of the Python conditional emitted by the `ph_check_level`
generator in src/blocks/generators.js and src/unnamed/part_000:
first branch tests `ph < 7.0`, the second `ph == 7.0`, else the base
category. -/
def classify (ph : ℚ) : PhLevel :=
  if ph < 7 then PhLevel.Acid
  else if ph = 7 then PhLevel.Neutral
  else PhLevel.Base

/-- Sum of squared vertical (pH) residuals of the line `(m, b)` against the
three calibration points. -/
def sumSqResiduals (v1 v2 v3 p1 p2 p3 m b : ℚ) : ℚ :=
  (p1 - (m * v1 + b)) ^ 2 + (p2 - (m * v2 + b)) ^ 2 + (p3 - (m * v3 + b)) ^ 2

/-- The documented default low reference pH of the 4.0/7.0 buffer
convention. -/
def defaultPhLow : ℚ := 4

/-- The documented default high reference pH of the 4.0/7.0 buffer
convention. -/
def defaultPhHigh : ℚ := 7

/-- C1: with distinct voltages, calibrateTwoPoint stores exactly the
two-point line; for the buffers `(2.5, pH 4)` and `(2.0, pH 7)` it stores
`slope = -6`, `intercept = 19`, and phFromVoltage on the resulting store
reproduces both reference pH values. -/
theorem calibrateTwoPoint_exact (vL vH pL pH : ℚ) (h : vH ≠ vL)
    (st : CalibrationState) :
    calibrateTwoPoint vL vH pL pH st =
      Except.ok ⟨(pH - pL) / (vH - vL), pL - (pH - pL) / (vH - vL) * vL⟩ ∧
    calibrateTwoPoint 2.5 2 4 7 st = Except.ok ⟨-6, 19⟩ ∧
    phFromVoltage 2.5 (runOp (calibrateTwoPoint 2.5 2 4 7) st) = 4 ∧
    phFromVoltage 2 (runOp (calibrateTwoPoint 2.5 2 4 7) st) = 7 := by
  refine ⟨?_, ?_, ?_, ?_⟩
  · simp only [calibrateTwoPoint, if_neg h]
  · norm_num [calibrateTwoPoint]
  · norm_num [calibrateTwoPoint, runOp, phFromVoltage]
  · norm_num [calibrateTwoPoint, runOp, phFromVoltage]

/-- Witness for C1 at the concrete buffers of the claim. -/
theorem calibrateTwoPoint_exact_witness :
    (2 : ℚ) ≠ 2.5 ∧
    (calibrateTwoPoint 2.5 2 4 7 ⟨0, 0⟩ =
        Except.ok ⟨(7 - 4) / (2 - 2.5), 4 - (7 - 4) / (2 - 2.5) * 2.5⟩ ∧
      calibrateTwoPoint 2.5 2 4 7 ⟨0, 0⟩ = Except.ok ⟨-6, 19⟩ ∧
      phFromVoltage 2.5 (runOp (calibrateTwoPoint 2.5 2 4 7) ⟨0, 0⟩) = 4 ∧
      phFromVoltage 2 (runOp (calibrateTwoPoint 2.5 2 4 7) ⟨0, 0⟩) = 7) :=
  ⟨by norm_num, calibrateTwoPoint_exact 2.5 2 4 7 (by norm_num) ⟨0, 0⟩⟩

/-- C3: calibrateOffset adds `actualPh - measuredPh` to the intercept and
leaves the slope unchanged; at `(measuredPh, actualPh) = (6.5, 7)` the
intercept rises by exactly `1/2`. -/
theorem calibrateOffset_shifts_intercept (measuredPh actualPh : ℚ)
    (st : CalibrationState) :
    (calibrateOffset measuredPh actualPh st).intercept =
      st.intercept + (actualPh - measuredPh) ∧
    (calibrateOffset measuredPh actualPh st).slope = st.slope ∧
    (calibrateOffset 6.5 7 st).intercept = st.intercept + 1 / 2 ∧
    (calibrateOffset 6.5 7 st).slope = st.slope := by
  refine ⟨rfl, rfl, ?_, rfl⟩
  norm_num [calibrateOffset]

/-- C4: setCalibration fails with InvalidCalibration exactly when the slope
is zero; on failure the previously stored pair is unchanged, and on success
the store holds exactly the given pair. -/
theorem setCalibration_validates (s i : ℚ) (st : CalibrationState) :
    (setCalibration s i st = Except.error CalibError.InvalidCalibration ↔
      s = 0) ∧
    (s = 0 → runOp (setCalibration s i) st = st) ∧
    (s ≠ 0 → setCalibration s i st = Except.ok ⟨s, i⟩ ∧
      runOp (setCalibration s i) st = ⟨s, i⟩) := by
  by_cases hs : s = 0
  · simp [setCalibration, runOp, hs]
  · simp [setCalibration, runOp, hs]

/-- Witness for C4 at slope 0 over the store `(-6, 19)` and at the valid
pair `(2, 3)`. -/
theorem setCalibration_validates_witness :
    (setCalibration 0 5 ⟨-6, 19⟩ =
        Except.error CalibError.InvalidCalibration) ∧
    runOp (setCalibration 0 5) ⟨-6, 19⟩ = ⟨-6, 19⟩ ∧
    setCalibration 2 3 ⟨-6, 19⟩ = Except.ok ⟨2, 3⟩ :=
  ⟨((setCalibration_validates 0 5 ⟨-6, 19⟩).1).2 rfl,
    (setCalibration_validates 0 5 ⟨-6, 19⟩).2.1 rfl,
    ((setCalibration_validates 2 3 ⟨-6, 19⟩).2.2 (by norm_num)).1⟩

/-- C5: calibrateTwoPoint fails with DegenerateCalibration exactly when the
two voltages coincide, calibrateThreePoint exactly when the least-squares
denominator is zero, and in each failure the store is left unchanged. -/
theorem degenerate_failures_leave_store (vL vH pL pH v1 v2 v3 q1 q2 q3 : ℚ)
    (st : CalibrationState) :
    (calibrateTwoPoint vL vH pL pH st =
        Except.error CalibError.DegenerateCalibration ↔ vH = vL) ∧
    (calibrateThreePoint v1 v2 v3 q1 q2 q3 st =
        Except.error CalibError.DegenerateCalibration ↔
      lsqDenom v1 v2 v3 = 0) ∧
    (vH = vL → runOp (calibrateTwoPoint vL vH pL pH) st = st) ∧
    (lsqDenom v1 v2 v3 = 0 →
      runOp (calibrateThreePoint v1 v2 v3 q1 q2 q3) st = st) := by
  refine ⟨?_, ?_, ?_, ?_⟩
  · by_cases hv : vH = vL <;> simp [calibrateTwoPoint, hv]
  · by_cases hd : lsqDenom v1 v2 v3 = 0 <;> simp [calibrateThreePoint, hd]
  · intro hv; simp [calibrateTwoPoint, runOp, hv]
  · intro hd; simp [calibrateThreePoint, runOp, hd]

/-- Witness for C5 at equal voltages `v1 == v2 == 1.5` (with all three
voltages equal for the three-point case) over the store `(-6, 19)`. -/
theorem degenerate_failures_leave_store_witness :
    (calibrateTwoPoint 1.5 1.5 4 7 ⟨-6, 19⟩ =
        Except.error CalibError.DegenerateCalibration) ∧
    (calibrateThreePoint 1.5 1.5 1.5 4 7 9 ⟨-6, 19⟩ =
        Except.error CalibError.DegenerateCalibration) ∧
    runOp (calibrateTwoPoint 1.5 1.5 4 7) ⟨-6, 19⟩ = ⟨-6, 19⟩ ∧
    runOp (calibrateThreePoint 1.5 1.5 1.5 4 7 9) ⟨-6, 19⟩ = ⟨-6, 19⟩ :=
  ⟨((degenerate_failures_leave_store 1.5 1.5 4 7 1.5 1.5 1.5 4 7 9
        ⟨-6, 19⟩).1).2 rfl,
    ((degenerate_failures_leave_store 1.5 1.5 4 7 1.5 1.5 1.5 4 7 9
        ⟨-6, 19⟩).2.1).2 (by norm_num [lsqDenom]),
    (degenerate_failures_leave_store 1.5 1.5 4 7 1.5 1.5 1.5 4 7 9
        ⟨-6, 19⟩).2.2.1 rfl,
    (degenerate_failures_leave_store 1.5 1.5 4 7 1.5 1.5 1.5 4 7 9
        ⟨-6, 19⟩).2.2.2 (by norm_num [lsqDenom])⟩

/-- C6: phFromVoltage returns exactly `slope * voltage + intercept` from the
state passed at call time, and applies no clamping: some calibration and
voltage yield a pH above 14, and some yield a negative pH. -/
theorem phFromVoltage_linear_unclamped :
    (∀ (v : ℚ) (st : CalibrationState),
      phFromVoltage v st = st.slope * v + st.intercept) ∧
    (∃ (st : CalibrationState) (v : ℚ), 14 < phFromVoltage v st) ∧
    (∃ (st : CalibrationState) (v : ℚ), phFromVoltage v st < 0) :=
  ⟨fun _ _ => rfl,
    ⟨⟨1, 0⟩, 20, by norm_num [phFromVoltage]⟩,
    ⟨⟨1, 0⟩, -1, by norm_num [phFromVoltage]⟩⟩

/-- C7: the level classifier emitted by `ph_check_level` returns Acid below
7, Neutral at exactly 7, Base otherwise; in particular `classify 7 =
Neutral`, `classify 6.99 = Acid`, `classify 7.01 = Base`. -/
theorem classify_levels :
    (∀ ph : ℚ, ph < 7 → classify ph = PhLevel.Acid) ∧
    (∀ ph : ℚ, ph = 7 → classify ph = PhLevel.Neutral) ∧
    (∀ ph : ℚ, ¬ph < 7 → ph ≠ 7 → classify ph = PhLevel.Base) ∧
    classify 7 = PhLevel.Neutral ∧
    classify 6.99 = PhLevel.Acid ∧
    classify 7.01 = PhLevel.Base := by
  refine ⟨?_, ?_, ?_, ?_, ?_, ?_⟩
  · intro ph h; simp [classify, h]
  · intro ph h; simp [classify, h]
  · intro ph h1 h2; simp [classify, h1, h2]
  · norm_num [classify]
  · norm_num [classify]
  · norm_num [classify]

/-- Witness for C7 at the three concrete pH values of the claim. -/
theorem classify_levels_witness :
    classify 6.5 = PhLevel.Acid ∧ classify 7 = PhLevel.Neutral ∧
    classify 8 = PhLevel.Base :=
  ⟨classify_levels.1 6.5 (by norm_num),
    classify_levels.2.1 7 rfl,
    classify_levels.2.2.1 8 (by norm_num) (by norm_num)⟩

/-- C8: every Reading composed by readAll is internally consistent — its ph
field equals its slope field times its voltage field plus its intercept
field — because pH and the reported coefficients come from the one state
snapshot passed at call time. -/
theorem readAll_consistent (v : ℚ) (st : CalibrationState) :
    (readAll v st).ph =
      (readAll v st).slope * (readAll v st).voltage +
        (readAll v st).intercept ∧
    (readAll v st).ph = phFromVoltage v st ∧
    (readAll v st).voltage = v ∧
    (readAll v st).slope = st.slope ∧
    (readAll v st).intercept = st.intercept :=
  ⟨rfl, rfl, rfl, rfl, rfl⟩

/-- Decomposition of the residual sum of squares: when the line `(mh, bh)`
satisfies the two normal equations, any other line's residual sum exceeds
it by a sum of three squares. -/
theorem sumSq_decomposition (v1 v2 v3 p1 p2 p3 mh bh m b : ℚ)
    (h1 : (p1 - (mh * v1 + bh)) + (p2 - (mh * v2 + bh)) +
      (p3 - (mh * v3 + bh)) = 0)
    (h2 : v1 * (p1 - (mh * v1 + bh)) + v2 * (p2 - (mh * v2 + bh)) +
      v3 * (p3 - (mh * v3 + bh)) = 0) :
    sumSqResiduals v1 v2 v3 p1 p2 p3 m b =
      sumSqResiduals v1 v2 v3 p1 p2 p3 mh bh +
        (((mh - m) * v1 + (bh - b)) ^ 2 + ((mh - m) * v2 + (bh - b)) ^ 2 +
          ((mh - m) * v3 + (bh - b)) ^ 2) := by
  unfold sumSqResiduals
  linear_combination (2 * (mh - m)) * h2 + (2 * (bh - b)) * h1

/-- The least-squares formulas satisfy both normal equations whenever the
denominator is nonzero. -/
theorem lsq_normal_equations (v1 v2 v3 p1 p2 p3 : ℚ)
    (hD : lsqDenom v1 v2 v3 ≠ 0) :
    ((p1 - (lsqSlope v1 v2 v3 p1 p2 p3 * v1 + lsqIntercept v1 v2 v3 p1 p2 p3)) +
      (p2 - (lsqSlope v1 v2 v3 p1 p2 p3 * v2 + lsqIntercept v1 v2 v3 p1 p2 p3)) +
      (p3 - (lsqSlope v1 v2 v3 p1 p2 p3 * v3 + lsqIntercept v1 v2 v3 p1 p2 p3)) = 0) ∧
    (v1 * (p1 - (lsqSlope v1 v2 v3 p1 p2 p3 * v1 + lsqIntercept v1 v2 v3 p1 p2 p3)) +
      v2 * (p2 - (lsqSlope v1 v2 v3 p1 p2 p3 * v2 + lsqIntercept v1 v2 v3 p1 p2 p3)) +
      v3 * (p3 - (lsqSlope v1 v2 v3 p1 p2 p3 * v3 + lsqIntercept v1 v2 v3 p1 p2 p3)) = 0) := by
  unfold lsqIntercept
  constructor
  · ring
  · unfold lsqSlope
    unfold lsqDenom at hD ⊢
    field_simp
    ring

/-- C2: with nonzero denominator, calibrateThreePoint stores exactly the
ordinary least-squares slope and intercept, and that line minimizes the sum
of squared vertical pH residuals over all lines. -/
theorem calibrateThreePoint_leastSquares (v1 v2 v3 p1 p2 p3 m b : ℚ)
    (hD : lsqDenom v1 v2 v3 ≠ 0) (st : CalibrationState) :
    calibrateThreePoint v1 v2 v3 p1 p2 p3 st =
      Except.ok ⟨lsqSlope v1 v2 v3 p1 p2 p3, lsqIntercept v1 v2 v3 p1 p2 p3⟩ ∧
    sumSqResiduals v1 v2 v3 p1 p2 p3 (lsqSlope v1 v2 v3 p1 p2 p3)
        (lsqIntercept v1 v2 v3 p1 p2 p3) ≤
      sumSqResiduals v1 v2 v3 p1 p2 p3 m b := by
  obtain ⟨h1, h2⟩ := lsq_normal_equations v1 v2 v3 p1 p2 p3 hD
  refine ⟨by simp [calibrateThreePoint, hD], ?_⟩
  rw [sumSq_decomposition v1 v2 v3 p1 p2 p3 (lsqSlope v1 v2 v3 p1 p2 p3)
    (lsqIntercept v1 v2 v3 p1 p2 p3) m b h1 h2]
  have hq1 := sq_nonneg ((lsqSlope v1 v2 v3 p1 p2 p3 - m) * v1 +
    (lsqIntercept v1 v2 v3 p1 p2 p3 - b))
  have hq2 := sq_nonneg ((lsqSlope v1 v2 v3 p1 p2 p3 - m) * v2 +
    (lsqIntercept v1 v2 v3 p1 p2 p3 - b))
  have hq3 := sq_nonneg ((lsqSlope v1 v2 v3 p1 p2 p3 - m) * v3 +
    (lsqIntercept v1 v2 v3 p1 p2 p3 - b))
  linarith

/-- Witness for C2 at voltages `(1, 2, 3)`, reference pH `(1, 2, 3)` and
the competing line `(0, 0)`. -/
theorem calibrateThreePoint_leastSquares_witness :
    lsqDenom 1 2 3 ≠ 0 ∧
    (calibrateThreePoint 1 2 3 1 2 3 ⟨0, 0⟩ =
        Except.ok ⟨lsqSlope 1 2 3 1 2 3, lsqIntercept 1 2 3 1 2 3⟩ ∧
      sumSqResiduals 1 2 3 1 2 3 (lsqSlope 1 2 3 1 2 3)
          (lsqIntercept 1 2 3 1 2 3) ≤
        sumSqResiduals 1 2 3 1 2 3 0 0) :=
  ⟨by norm_num [lsqDenom],
    calibrateThreePoint_leastSquares 1 2 3 1 2 3 0 0
      (by norm_num [lsqDenom]) ⟨0, 0⟩⟩

/-- C9: when the three calibration points lie exactly on the line
`p = m·v + b` and the fit denominator is nonzero, calibrateThreePoint
stores `(m, b)`, and calibrateTwoPoint from any two points of that line
with distinct voltages stores the same pair, so the two results agree. -/
theorem calibrateThreePoint_collinear (v1 v2 v3 p1 p2 p3 m b vA pA vB pB : ℚ)
    (h1 : p1 = m * v1 + b) (h2 : p2 = m * v2 + b) (h3 : p3 = m * v3 + b)
    (hD : lsqDenom v1 v2 v3 ≠ 0)
    (hA : pA = m * vA + b) (hB : pB = m * vB + b) (hAB : vB ≠ vA)
    (st : CalibrationState) :
    calibrateThreePoint v1 v2 v3 p1 p2 p3 st = Except.ok ⟨m, b⟩ ∧
    calibrateTwoPoint vA vB pA pB st = Except.ok ⟨m, b⟩ ∧
    calibrateThreePoint v1 v2 v3 p1 p2 p3 st =
      calibrateTwoPoint vA vB pA pB st := by
  subst h1 h2 h3 hA hB
  have hs : lsqSlope v1 v2 v3 (m * v1 + b) (m * v2 + b) (m * v3 + b) = m := by
    unfold lsqSlope
    rw [div_eq_iff hD]
    unfold lsqDenom
    ring
  have hi : lsqIntercept v1 v2 v3 (m * v1 + b) (m * v2 + b) (m * v3 + b) = b := by
    unfold lsqIntercept
    rw [hs]
    ring
  have h3p : calibrateThreePoint v1 v2 v3 (m * v1 + b) (m * v2 + b)
      (m * v3 + b) st = Except.ok ⟨m, b⟩ := by
    simp [calibrateThreePoint, hD, hs, hi]
  have hv : vB - vA ≠ 0 := sub_ne_zero.mpr hAB
  have hm : ((m * vB + b) - (m * vA + b)) / (vB - vA) = m := by
    rw [div_eq_iff hv]
    ring
  have h2p : calibrateTwoPoint vA vB (m * vA + b) (m * vB + b) st =
      Except.ok ⟨m, b⟩ := by
    simp only [calibrateTwoPoint, if_neg hAB, hm]
    norm_num
  exact ⟨h3p, h2p, by rw [h3p, h2p]⟩

/-- Witness for C9 on the line `p = 2·v + 1` at voltages `(1, 2, 3)`,
with the two-point pair taken at the first and third points. -/
theorem calibrateThreePoint_collinear_witness :
    (3 : ℚ) = 2 * 1 + 1 ∧ (5 : ℚ) = 2 * 2 + 1 ∧ (7 : ℚ) = 2 * 3 + 1 ∧
    lsqDenom 1 2 3 ≠ 0 ∧ (3 : ℚ) ≠ 1 ∧
    (calibrateThreePoint 1 2 3 3 5 7 ⟨0, 0⟩ = Except.ok ⟨2, 1⟩ ∧
      calibrateTwoPoint 1 3 3 7 ⟨0, 0⟩ = Except.ok ⟨2, 1⟩ ∧
      calibrateThreePoint 1 2 3 3 5 7 ⟨0, 0⟩ =
        calibrateTwoPoint 1 3 3 7 ⟨0, 0⟩) :=
  ⟨by norm_num, by norm_num, by norm_num, by norm_num [lsqDenom], by norm_num,
    calibrateThreePoint_collinear 1 2 3 3 5 7 2 1 1 3 3 7
      (by norm_num) (by norm_num) (by norm_num) (by norm_num [lsqDenom])
      (by norm_num) (by norm_num) (by norm_num) ⟨0, 0⟩⟩

/-- C10: the calibration operations take the reference pH values as
parameters and compute the same formulas for every choice of them; the
documented default 4.0/7.0 convention and the 4.01/6.86 convention are two
instantiations of the one implementation. -/
theorem calibration_reference_parametric (vL vH v1 v2 v3 pL pHi q1 q2 q3 : ℚ)
    (hV : vH ≠ vL) (hD : lsqDenom v1 v2 v3 ≠ 0) (st : CalibrationState) :
    calibrateTwoPoint vL vH pL pHi st =
      Except.ok ⟨(pHi - pL) / (vH - vL), pL - (pHi - pL) / (vH - vL) * vL⟩ ∧
    calibrateThreePoint v1 v2 v3 q1 q2 q3 st =
      Except.ok ⟨lsqSlope v1 v2 v3 q1 q2 q3, lsqIntercept v1 v2 v3 q1 q2 q3⟩ ∧
    calibrateTwoPoint 2.5 2 defaultPhLow defaultPhHigh st =
      Except.ok ⟨-6, 19⟩ ∧
    calibrateTwoPoint 2.8 2.1 4.01 6.86 st =
      Except.ok ⟨-57 / 14, 1541 / 100⟩ := by
  refine ⟨?_, ?_, ?_, ?_⟩
  · simp only [calibrateTwoPoint, if_neg hV]
  · simp [calibrateThreePoint, hD]
  · norm_num [calibrateTwoPoint, defaultPhLow, defaultPhHigh]
  · norm_num [calibrateTwoPoint]

/-- Witness for C10 at the default buffers of both conventions. -/
theorem calibration_reference_parametric_witness :
    (2 : ℚ) ≠ 2.5 ∧ lsqDenom 2.5 2 1.5 ≠ 0 ∧
    (calibrateTwoPoint 2.5 2 4 7 ⟨0, 0⟩ =
        Except.ok ⟨(7 - 4) / (2 - 2.5), 4 - (7 - 4) / (2 - 2.5) * 2.5⟩ ∧
      calibrateThreePoint 2.5 2 1.5 4 7 9 ⟨0, 0⟩ =
        Except.ok ⟨lsqSlope 2.5 2 1.5 4 7 9, lsqIntercept 2.5 2 1.5 4 7 9⟩ ∧
      calibrateTwoPoint 2.5 2 defaultPhLow defaultPhHigh ⟨0, 0⟩ =
        Except.ok ⟨-6, 19⟩ ∧
      calibrateTwoPoint 2.8 2.1 4.01 6.86 ⟨0, 0⟩ =
        Except.ok ⟨-57 / 14, 1541 / 100⟩) :=
  ⟨by norm_num, by norm_num [lsqDenom],
    calibration_reference_parametric 2.5 2 2.5 2 1.5 4 7 4 7 9
      (by norm_num) (by norm_num [lsqDenom]) ⟨0, 0⟩⟩

end PhSensor
